import Mathlib

/-!
Shallow embedding of the HealSeek appointment backend core:
the query builder and connection manager of `app/database/database.py`
and the appointment controllers of
`app/controllers/appointments_controllers.py`.

Database values are abstracted: integers stay integers, strings stay
strings, SQL timestamps become abstract integer ticks (with `isoformat`
rendering a tick as its decimal string), and Python `None` is `null`.
Rows fetched from the driver are positional tuples, modelled as lists of
values.  Table layouts come from `text.sql`, which is not part of the
source tree; where a layout decides behaviour it is modelled from the
spec and marked as such.
-/

inductive Value where
  | int : Int → Value
  | str : String → Value
  | time : Int → Value
  | null : Value
deriving DecidableEq, Repr

/-- Python truthiness of a fetched value: `0`, `""` and `None` are falsy. -/
def Value.truthy : Value → Bool
  | Value.int n => n != 0
  | Value.str s => s != ""
  | Value.time _ => true
  | Value.null => false

/-- `datetime.isoformat()`: defined on timestamp values only; calling it on
anything else is a Python `AttributeError`, modelled as `none`. -/
def Value.isoformat : Value → Option String
  | Value.time t => some (toString t)
  | _ => none

/-- A row fetched by the psycopg2 cursor: a positional tuple of values. -/
def Row := List Value
deriving DecidableEq

/-- The relational state the appointment controllers touch: the
`appointments`, `doctors`, `patients` and `users` tables, each a list of
positional rows in table-column order. -/
structure DBState where
  appointments : List Row
  doctors : List Row
  patients : List Row
  users : List Row
deriving DecidableEq

/-- `SELECT * FROM t WHERE col = %s ... LIMIT`-free lookup followed by
`fetch_one()`: the first row whose column `idx` equals `v`. -/
def findBy (table : List Row) (idx : Nat) (v : Value) : Option Row :=
  table.find? (fun r => List.get? r idx == some v)

/- ----------------------------------------------------------------
   Query builder (`BaseModel` in app/database/database.py).
   The Python methods receive keyword arguments: an ordered sequence of
   column/value pairs.  Only the keys are spliced into the SQL text; the
   values are passed separately to the driver as parameters.
   ---------------------------------------------------------------- -/

namespace BaseModel

/-- `BaseModel.select`: `SELECT * FROM {table} WHERE k1 = %s AND ...`. -/
def select (tableName : String) (kvs : List (String × Value)) : String :=
  "SELECT * FROM " ++ tableName ++ " WHERE " ++
    String.intercalate " AND " (kvs.map (fun kv => kv.1 ++ " = %s"))

/-- `BaseModel.update`: `UPDATE {table} SET k1 = %s, ... WHERE klast = %s`
where the SET clause lists every key but the last and the last key becomes
the WHERE predicate.  On an empty mapping the Python code raises
`IndexError` (`keys[-1]` of an empty list), modelled as `none`. -/
def update (tableName : String) (kvs : List (String × Value)) : Option String :=
  match kvs.getLast? with
  | none => none
  | some last =>
      some ("UPDATE " ++ tableName ++ " SET " ++
        String.intercalate ", " (kvs.dropLast.map (fun kv => kv.1 ++ " = %s")) ++
        " WHERE " ++ last.1 ++ " = %s")

/-- `BaseModel.delete`: `DELETE FROM {table} WHERE k1 = %s AND ...`. -/
def delete (tableName : String) (kvs : List (String × Value)) : String :=
  "DELETE FROM " ++ tableName ++ " WHERE " ++
    String.intercalate " AND " (kvs.map (fun kv => kv.1 ++ " = %s"))

end BaseModel

/- ----------------------------------------------------------------
   HTTP-level outcome of a controller call.
   ---------------------------------------------------------------- -/

/-- A JSON body returned on success: a single object, an array of objects,
an array of objects each carrying a nested `patient` object (the enriched
doctor listing), or a bare message object. -/
inductive Content where
  | obj : List (String × Value) → Content
  | arr : List (List (String × Value)) → Content
  | arrEnriched : List (List (String × Value) × List (String × Value)) → Content
  | msg : String → Content
deriving DecidableEq

/-- A controller outcome: `JSONResponse(content, status)` on the normal
path, or a raised `HTTPException(status_code, detail)` (a FastAPI 500 with
detail `Internal Server Error` stands for an exception that escapes every
handler). -/
inductive HResp where
  | ok : Nat → Content → HResp
  | err : Nat → String → HResp
deriving DecidableEq

/-- The HTTP status carried by a controller outcome. -/
def HResp.status : HResp → Nat
  | HResp.ok s _ => s
  | HResp.err s _ => s

/-- One call to `send_mail(to, subject, message, ...)`. -/
structure Mail where
  recipient : Value
  subject : String
  message : String
deriving DecidableEq

/-- Everything observable about one controller call: the HTTP response,
the database state afterwards, the mails sent, and the SQL statement
texts built by the query builder along the executed path. -/
structure COut where
  resp : HResp
  state : DBState
  mails : List Mail
  sqls : List String
deriving DecidableEq

/- ----------------------------------------------------------------
   Positional row access as the controllers perform it.
   Modelled from the spec: the repository's `text.sql` (the authoritative
   table definitions) is not part of the source tree; the spec's data
   model (section 3) gives the appointment columns as identifier,
   scheduled time, status, doctor reference, patient reference, in that
   order, and the users table as identifier, name, then contact fields
   with the email at the position the controllers read (index 3).
   ---------------------------------------------------------------- -/

/-- Column position of an appointment column, per the spec's data model:
`appointment_id`, `appointment_time`, `status`, `doctor_id`, `patient_id`.
Unknown columns have no position (PostgreSQL rejects them). -/
def colIndex (k : String) : Option Nat :=
  if k = "appointment_id" then some 0
  else if k = "appointment_time" then some 1
  else if k = "status" then some 2
  else if k = "doctor_id" then some 3
  else if k = "patient_id" then some 4
  else none

/-- The dictionary the list/get controllers build from one appointment row:
`{"appointment_id": a[0], "appointment_time": a[1].isoformat(), "status":
a[2], "doctor_id": a[3], "patient_id": a[4]}`; `none` when an index is out
of range or `isoformat` fails. -/
def rowToData (r : Row) : Option (List (String × Value)) := do
  let a0 ← List.get? r 0
  let a1 ← List.get? r 1
  let iso ← a1.isoformat
  let a2 ← List.get? r 2
  let a3 ← List.get? r 3
  let a4 ← List.get? r 4
  some [("appointment_id", a0), ("appointment_time", Value.str iso),
        ("status", a2), ("doctor_id", a3), ("patient_id", a4)]

/-- The six-field dictionary `get_patient_appointments` and
`get_doctor_appointments` build from one row, reading a `type` column at
index 3 and the doctor/patient references at indices 4 and 5. -/
def rowToData6 (r : Row) : Option (List (String × Value)) := do
  let a0 ← List.get? r 0
  let a1 ← List.get? r 1
  let iso ← a1.isoformat
  let a2 ← List.get? r 2
  let a3 ← List.get? r 3
  let a4 ← List.get? r 4
  let a5 ← List.get? r 5
  some [("appointment_id", a0), ("appointment_time", Value.str iso),
        ("status", a2), ("type", a3), ("doctor_id", a4), ("patient_id", a5)]

/- ----------------------------------------------------------------
   Semantics of executing the built statements against the state.
   ---------------------------------------------------------------- -/

/-- Apply a list of resolved `SET` assignments (column position, value) to
one row, left to right. -/
def applySets (r : Row) (sets : List (Nat × Value)) : Row :=
  sets.foldl (fun acc iv => acc.set iv.1 iv.2) r

/-- Execute the builder's `UPDATE appointments SET ... WHERE klast = %s`
statement: every listed column except the last is assigned on each row
whose `klast` column equals the last value.  PostgreSQL rejects an empty
SET clause (a syntax error) and an unknown column name; either driver
error surfaces as the connection manager's typed `DatabaseError` text. -/
def execUpdate (s : DBState) (kvs : List (String × Value)) :
    Except String DBState :=
  match kvs.getLast? with
  | none => Except.error "Query execution failed: empty statement"
  | some last =>
      if kvs.dropLast.isEmpty then
        Except.error "Query execution failed: syntax error at or near WHERE"
      else
        match colIndex last.1 with
        | none => Except.error "Query execution failed: column does not exist"
        | some wIdx =>
            match kvs.dropLast.mapM
                (fun kv => (colIndex kv.1).map (fun i => (i, kv.2))) with
            | none => Except.error "Query execution failed: column does not exist"
            | some sets =>
                Except.ok { s with appointments :=
                  s.appointments.map (fun r =>
                    if List.get? r wIdx == some last.2 then applySets r sets
                    else r) }

/- ----------------------------------------------------------------
   Appointment controllers (app/controllers/appointments_controllers.py).
   `user` is `request.state.user`, the caller identity injected by the
   excluded authentication middleware.  A FastAPI `HTTPException` raised
   inside a `try` block is an `Exception`, so the surrounding
   `except Exception` clause catches it and re-raises a 500 whose detail
   appends `str(e)` (rendered as `"{code}: {detail}"`); exception texts
   other than those are abstracted to short stable strings.
   ---------------------------------------------------------------- -/

/-- `get_all_appointments`: select every appointment row, shape each row
(inside the `try`), then 404 on an empty collection. -/
def get_all_appointments (s : DBState) : COut :=
  let q := "SELECT * FROM appointments;"
  match s.appointments.mapM rowToData with
  | none =>
      ⟨HResp.err 500 "Error while fetching appointments : row error", s, [], [q]⟩
  | some data =>
      if data.isEmpty then ⟨HResp.err 404 "No appointments found", s, [], [q]⟩
      else ⟨HResp.ok 200 (Content.arr data), s, [], [q]⟩

/-- `get_apointment_by_id`: fetch the row (404 outside the `try` when
absent), build the response dictionary, then deny with 403 unless the
caller equals `appointment[3]` AND equals `appointment[4]` (the source
writes `user != appointment[3] or user != appointment[4]`). -/
def get_apointment_by_id (user : Value) (s : DBState) (appointment_id : Int) :
    COut :=
  let q := BaseModel.select "appointments" [("appointment_id", Value.int appointment_id)]
  match findBy s.appointments 0 (Value.int appointment_id) with
  | none => ⟨HResp.err 404 "No appointment found", s, [], [q]⟩
  | some appointment =>
      match rowToData appointment, List.get? appointment 3, List.get? appointment 4 with
      | some data, some a3, some a4 =>
          if user != a3 || user != a4 then
            ⟨HResp.err 403 "You are not allowed to see this appointment", s, [], [q]⟩
          else ⟨HResp.ok 200 (Content.obj data), s, [], [q]⟩
      | _, _, _ => ⟨HResp.err 500 "Internal Server Error", s, [], [q]⟩

/-- `get_patient_appointments`: select the caller's rows, 404 on an empty
result (outside the `try`), then shape each row with the six-field
dictionary (any failure there escapes unhandled). -/
def get_patient_appointments (s : DBState) (patient_id : Int) : COut :=
  let q := BaseModel.select "appointments" [("patient_id", Value.int patient_id)]
  let rows := s.appointments.filter
    (fun r => List.get? r 4 == some (Value.int patient_id))
  if rows.isEmpty then ⟨HResp.err 404 "No appointments found", s, [], [q]⟩
  else
    match rows.mapM rowToData6 with
    | none => ⟨HResp.err 500 "Internal Server Error", s, [], [q]⟩
    | some data => ⟨HResp.ok 200 (Content.arr data), s, [], [q]⟩

/-- The enrichment step of `get_doctor_appointments`: look up the user row
of `appointment["patient_id"]` and attach name, email, phone, date of
birth and gender (indices 1, 3, 4, 5, 7 of the user row; the date of
birth is iso-formatted when truthy, else `None`). -/
def enrichOne (s : DBState) (d : List (String × Value)) :
    Option (List (String × Value) × List (String × Value)) := do
  let pid ← d.lookup "patient_id"
  let prow ← findBy s.users 0 pid
  let nm ← List.get? prow 1
  let em ← List.get? prow 3
  let ph ← List.get? prow 4
  let dv ← List.get? prow 5
  let dob ← if dv.truthy then Option.map Value.str dv.isoformat
            else some Value.null
  let gd ← List.get? prow 7
  some (d, [("name", nm), ("email", em), ("phone", ph),
            ("date_of_birth", dob), ("gender", gd)])

/-- `get_doctor_appointments`: select the doctor's rows, 404 on an empty
result, shape each row, then enrich each entry with the patient's public
profile (failures in the loop escape unhandled). -/
def get_doctor_appointments (s : DBState) (doctor_id : Int) : COut :=
  let q := BaseModel.select "appointments" [("doctor_id", Value.int doctor_id)]
  let rows := s.appointments.filter
    (fun r => List.get? r 3 == some (Value.int doctor_id))
  if rows.isEmpty then ⟨HResp.err 404 "No appointments found", s, [], [q]⟩
  else
    match rows.mapM rowToData6 with
    | none => ⟨HResp.err 500 "Internal Server Error", s, [], [q]⟩
    | some data =>
        match data.mapM (enrichOne s) with
        | none => ⟨HResp.err 500 "Internal Server Error", s, [], [q]⟩
        | some enriched =>
            ⟨HResp.ok 200 (Content.arrEnriched enriched), s, [], [q]⟩

/-- The create request body.  Modelled from the spec:
`app/models/appointment.py` (the pydantic model) is not part of the
source tree; the spec (section 6) gives the wire fields
`appointment_id`, `appointment_time` (an ISO-8601 string), `status`,
`doctor_id`, `patient_id`, in that order. -/
structure AppointmentReq where
  appointment_id : Int
  appointment_time : String
  status : String
  doctor_id : Int
  patient_id : Int
deriving DecidableEq

/-- The row `ap.insert(**appointment.dict())` writes: the five wire fields
in declaration order, the time still in its string form. -/
def AppointmentReq.toRow (a : AppointmentReq) : Row :=
  [Value.int a.appointment_id, Value.str a.appointment_time,
   Value.str a.status, Value.int a.doctor_id, Value.int a.patient_id]

/-- `add_appointment`.  `parse` stands for
`datetime.strptime(s, "%Y-%m-%dT%H:%M:%S.%fZ")` (an external library
call), returning the parsed timestamp tick or `none` for a `ValueError`;
`now` is `datetime.now()`.  Both `try` blocks re-raise every exception —
including the `HTTPException`s raised inside them — as a 500. -/
def add_appointment (parse : String → Option Int) (now : Int)
    (s : DBState) (a : AppointmentReq) : COut :=
  let dq := BaseModel.select "doctors" [("user_id", Value.int a.doctor_id)]
  match findBy s.doctors 0 (Value.int a.doctor_id) with
  | none =>
      ⟨HResp.err 500 "Error while checking doctor or patient ID : 404: Doctor ID is wrong",
       s, [], [dq]⟩
  | some _ =>
  let pq := BaseModel.select "patients" [("user_id", Value.int a.patient_id)]
  match findBy s.patients 0 (Value.int a.patient_id) with
  | none =>
      ⟨HResp.err 500 "Error while checking doctor or patient ID : 404: Patient ID is wrong",
       s, [], [dq, pq]⟩
  | some _ =>
  match parse a.appointment_time with
  | none =>
      ⟨HResp.err 500 ("error : time data does not match format" ++ a.appointment_time),
       s, [], [dq, pq]⟩
  | some t =>
  if t < now then
    ⟨HResp.err 500 ("error : 400: Appointment time should be in future" ++ a.appointment_time),
     s, [], [dq, pq]⟩
  else
    let s2 : DBState := { s with appointments := s.appointments ++ [a.toRow] }
    let uq := BaseModel.select "users" [("user_id", Value.int a.doctor_id)]
    match findBy s2.users 0 (Value.int a.doctor_id) with
    | none =>
        ⟨HResp.err 500 ("error : NoneType is not subscriptable" ++ a.appointment_time),
         s2, [], [dq, pq, uq]⟩
    | some du =>
    match List.get? du 3 with
    | none =>
        ⟨HResp.err 500 ("error : tuple index out of range" ++ a.appointment_time),
         s2, [], [dq, pq, uq]⟩
    | some em =>
        ⟨HResp.ok 200 (Content.obj
          [("appointment_id", Value.int a.appointment_id),
           ("appointment_time", Value.str a.appointment_time),
           ("status", Value.str a.status),
           ("doctor_id", Value.int a.doctor_id),
           ("patient_id", Value.int a.patient_id)]), s2,
         [⟨em, "Appointment Request",
           "You have a new appointment request , check your appointments to accept or reject it"⟩],
         [dq, pq, uq]⟩

/-- `update_appointment`.  The first `try` wraps the existence check, so
the 404 surfaces as a 500; the second `try` builds and executes the
UPDATE (the body's keys followed by `appointment_id`, so a body that
itself carries `appointment_id` is a Python `TypeError` before anything
executes), then reads `appointment_data["status"]` — a `KeyError` when
absent — and, when the value is truthy, mails the user found through
`appointment[5]`. -/
def update_appointment (_user : Value) (s : DBState) (appointment_id : Int)
    (data : List (String × Value)) : COut :=
  let q := BaseModel.select "appointments" [("appointment_id", Value.int appointment_id)]
  match findBy s.appointments 0 (Value.int appointment_id) with
  | none =>
      ⟨HResp.err 500 "Error while fetching appointment : 404: No appointment found",
       s, [], [q]⟩
  | some appointment =>
  if "appointment_id" ∈ data.map Prod.fst then
    ⟨HResp.err 500 "Error while updating appointment : got multiple values for keyword argument appointment_id",
     s, [], [q]⟩
  else
    let kvs := data ++ [("appointment_id", Value.int appointment_id)]
    let uq := (BaseModel.update "appointments" kvs).getD ""
    match execUpdate s kvs with
    | Except.error e =>
        ⟨HResp.err 500 ("Error while updating appointment : " ++ e), s, [], [q, uq]⟩
    | Except.ok s2 =>
    match data.lookup "status" with
    | none =>
        ⟨HResp.err 500 "Error while updating appointment : KeyError status",
         s2, [], [q, uq]⟩
    | some v =>
    if v.truthy then
      let subject := if v == Value.str "completed" then "Appointment Accepted"
                     else "Appointment Rejected"
      let message := if v == Value.str "completed" then "Your appointment has been accepted"
                     else "Your appointment has been rejected"
      match List.get? appointment 5 with
      | none =>
          ⟨HResp.err 500 "Error while updating appointment : list index out of range",
           s2, [], [q, uq]⟩
      | some pv =>
      let pq := BaseModel.select "users" [("user_id", pv)]
      match findBy s2.users 0 pv with
      | none =>
          ⟨HResp.err 500 "Error while updating appointment : NoneType is not subscriptable",
           s2, [], [q, uq, pq]⟩
      | some patient =>
      match List.get? patient 3 with
      | none =>
          ⟨HResp.err 500 "Error while updating appointment : tuple index out of range",
           s2, [], [q, uq, pq]⟩
      | some em =>
          ⟨HResp.ok 200 (Content.obj data), s2, [⟨em, subject, message⟩], [q, uq, pq]⟩
    else ⟨HResp.ok 200 (Content.obj data), s2, [], [q, uq]⟩

/-- `delete_appointment`.  The existence check and the doctor-ownership
check both sit inside the first `try`, so their 404/403 surface as 500s;
afterwards the row is deleted and a confirmation returned. -/
def delete_appointment (user : Value) (s : DBState) (appointment_id : Int) :
    COut :=
  let q := BaseModel.select "appointments" [("appointment_id", Value.int appointment_id)]
  match findBy s.appointments 0 (Value.int appointment_id) with
  | none =>
      ⟨HResp.err 500 "Error while fetching appointment : 404: No appointment found",
       s, [], [q]⟩
  | some appointment =>
  match List.get? appointment 3 with
  | none =>
      ⟨HResp.err 500 "Error while fetching appointment : list index out of range",
       s, [], [q]⟩
  | some d =>
  if user != d then
    ⟨HResp.err 500 "Error while fetching appointment : 403: You are not allowed to delete this appointment",
     s, [], [q]⟩
  else
    let dq := BaseModel.delete "appointments" [("appointment_id", Value.int appointment_id)]
    ⟨HResp.ok 200 (Content.msg "Appointment deleted"),
     { s with appointments :=
        s.appointments.filter (fun r => !(List.get? r 0 == some (Value.int appointment_id))) },
     [], [q, dq]⟩

/- ----------------------------------------------------------------
   Connection manager (`Database.execute_query` in
   app/database/database.py).  The driver and the reconnection helpers
   (`ensure_connection`, `reconnect_if_needed`) are external
   collaborators; one call is modelled by an environment fixing what each
   collaborator call would return and what each cursor execution would
   raise.
   ---------------------------------------------------------------- -/

/-- What one `cursor.execute` call does: succeed, raise
`psycopg2.OperationalError`, or raise another `psycopg2.Error`. -/
inductive ExecOutcome where
  | ok : ExecOutcome
  | operationalError : String → ExecOutcome
  | otherError : String → ExecOutcome
deriving DecidableEq

/-- The environment of one `execute_query` call: the result of
`ensure_connection()`, of `reconnect_if_needed(self.max_retries)` (the
pre-flight path), of `reconnect_if_needed()` (the retry path), and the
outcome of the first and of the retried `cursor.execute`. -/
structure DbEnv where
  ensureConn : Bool
  reconnectPre : Bool
  reconnectRetry : Bool
  firstExec : ExecOutcome
  retryExec : ExecOutcome
deriving DecidableEq

/-- The observable steps `execute_query` takes, in order. -/
inductive DbEvent where
  | ensure : DbEvent
  | reconnectAttempt : DbEvent
  | exec : DbEvent
  | commit : DbEvent
  | rollback : DbEvent
deriving DecidableEq

/-- The call's outcome: a normal return or a raised `DatabaseError`. -/
inductive QResult where
  | ok : QResult
  | dbError : String → QResult
deriving DecidableEq

/-- `Database.execute_query`: ensure connectivity (with a pre-flight
reconnect when the probe fails), execute and commit; on
`psycopg2.OperationalError` reconnect once and retry once (a retry
failure rolls back and raises `DatabaseError`); on any other
`psycopg2.Error` roll back and raise `DatabaseError`. -/
def execute_query (env : DbEnv) : QResult × List DbEvent :=
  let pre : List DbEvent :=
    if env.ensureConn then [DbEvent.ensure]
    else [DbEvent.ensure, DbEvent.reconnectAttempt]
  if !env.ensureConn && !env.reconnectPre then
    (QResult.dbError "Database connection could not be established", pre)
  else
    match env.firstExec with
    | ExecOutcome.ok => (QResult.ok, pre ++ [DbEvent.exec, DbEvent.commit])
    | ExecOutcome.operationalError _ =>
        if env.reconnectRetry then
          match env.retryExec with
          | ExecOutcome.ok =>
              (QResult.ok,
               pre ++ [DbEvent.exec, DbEvent.reconnectAttempt, DbEvent.exec, DbEvent.commit])
          | ExecOutcome.operationalError m =>
              (QResult.dbError ("Query execution failed after reconnection: " ++ m),
               pre ++ [DbEvent.exec, DbEvent.reconnectAttempt, DbEvent.exec, DbEvent.rollback])
          | ExecOutcome.otherError m =>
              (QResult.dbError ("Query execution failed after reconnection: " ++ m),
               pre ++ [DbEvent.exec, DbEvent.reconnectAttempt, DbEvent.exec, DbEvent.rollback])
        else
          (QResult.dbError "Could not reconnect to database",
           pre ++ [DbEvent.exec, DbEvent.reconnectAttempt])
    | ExecOutcome.otherError m =>
        (QResult.dbError ("Query execution failed: " ++ m),
         pre ++ [DbEvent.exec, DbEvent.rollback])

/-- How many `cursor.execute` calls a trace contains. -/
def execCount (tr : List DbEvent) : Nat :=
  (tr.filter (fun e => e == DbEvent.exec)).length

/-- Whether a `QResult` is a raised `DatabaseError`. -/
def QResult.isDbError : QResult → Bool
  | QResult.ok => false
  | QResult.dbError _ => true

/- ----------------------------------------------------------------
   Shared concrete fixtures.
   ---------------------------------------------------------------- -/

/-- A well-formed appointment row per the spec's data model: id 1,
time tick 50, status `pending`, doctor 3, patient 9. -/
def sampleRow : Row :=
  [Value.int 1, Value.time 50, Value.str "pending", Value.int 3, Value.int 9]

/-- A small database: one appointment, doctor 3, patient 9, and the two
user rows behind them. -/
def sampleState : DBState :=
  { appointments := [sampleRow]
  , doctors := [[Value.int 3, Value.str "cardio"]]
  , patients := [[Value.int 9]]
  , users :=
      [[Value.int 3, Value.str "DrA", Value.null, Value.str "doc@mail", Value.str "555",
        Value.time 10, Value.null, Value.str "m"],
       [Value.int 9, Value.str "PatB", Value.null, Value.str "pat@mail", Value.str "556",
        Value.time 20, Value.null, Value.str "f"]] }

/-- A concrete stand-in for `datetime.strptime`: `"PAST"` parses to tick 0,
`"NOW"` to tick 5, everything else fails. -/
def parse0 : String → Option Int :=
  fun s => if s = "PAST" then some 0 else if s = "NOW" then some 5 else none

/- ----------------------------------------------------------------
   Claims.
   ---------------------------------------------------------------- -/

/-- C6: every list operation (list all, list by patient, list by doctor)
whose underlying query returns zero rows fails with a not-found-class
404 error rather than returning an empty success response. -/
theorem c6_empty_list_is_not_found (s : DBState) (pid did : Int) :
    (s.appointments = [] →
      (get_all_appointments s).resp = HResp.err 404 "No appointments found")
    ∧ (s.appointments.filter (fun r => List.get? r 4 == some (Value.int pid)) = [] →
      (get_patient_appointments s pid).resp = HResp.err 404 "No appointments found")
    ∧ (s.appointments.filter (fun r => List.get? r 3 == some (Value.int did)) = [] →
      (get_doctor_appointments s did).resp = HResp.err 404 "No appointments found") := by
  refine ⟨fun h => ?_, fun h => ?_, fun h => ?_⟩
  · simp only [get_all_appointments, h]; rfl
  · simp only [get_patient_appointments, h]; rfl
  · simp only [get_doctor_appointments, h]; rfl

/-- Witness for C6: on the empty database all three listings answer 404. -/
theorem c6_empty_list_is_not_found_witness :
    (get_all_appointments ⟨[], [], [], []⟩).resp = HResp.err 404 "No appointments found"
    ∧ (get_patient_appointments ⟨[], [], [], []⟩ 9).resp = HResp.err 404 "No appointments found"
    ∧ (get_doctor_appointments ⟨[], [], [], []⟩ 3).resp = HResp.err 404 "No appointments found" :=
  ⟨(c6_empty_list_is_not_found ⟨[], [], [], []⟩ 9 3).1 rfl,
   (c6_empty_list_is_not_found ⟨[], [], [], []⟩ 9 3).2.1 rfl,
   (c6_empty_list_is_not_found ⟨[], [], [], []⟩ 9 3).2.2 rfl⟩

/-- The UPDATE builder reads only the keys of its mapping: its output is
determined by `kvs.map Prod.fst`. -/
theorem BaseModel.update_eq_of_keys_eq (t : String)
    (kvs kvs2 : List (String × Value))
    (h : kvs.map Prod.fst = kvs2.map Prod.fst) :
    BaseModel.update t kvs = BaseModel.update t kvs2 := by
  unfold BaseModel.update
  have hlast : kvs.getLast?.map Prod.fst = kvs2.getLast?.map Prod.fst := by
    rw [← List.getLast?_map, ← List.getLast?_map, h]
  have hdrop : kvs.dropLast.map (fun kv => kv.1 ++ " = %s") =
      kvs2.dropLast.map (fun kv => kv.1 ++ " = %s") := by
    have : ∀ l : List (String × Value),
        l.dropLast.map (fun kv : String × Value => kv.1 ++ " = %s") =
          (l.map Prod.fst).dropLast.map (fun k => k ++ " = %s") := by
      intro l
      rw [← List.map_dropLast, List.map_map]
      rfl
    rw [this, this, h]
  cases hk : kvs.getLast? with
  | none =>
      cases hk2 : kvs2.getLast? with
      | none => rfl
      | some p2 => rw [hk, hk2] at hlast; exact absurd hlast (by simp)
  | some p =>
      cases hk2 : kvs2.getLast? with
      | none => rw [hk, hk2] at hlast; exact absurd hlast (by simp)
      | some p2 =>
          rw [hk, hk2] at hlast
          have hp : p.1 = p2.1 := by
            simpa using hlast
          rw [hdrop]
          show some ("UPDATE " ++ t ++ " SET " ++
              String.intercalate ", " (kvs2.dropLast.map (fun kv => kv.1 ++ " = %s")) ++
              " WHERE " ++ p.1 ++ " = %s") =
            some ("UPDATE " ++ t ++ " SET " ++
              String.intercalate ", " (kvs2.dropLast.map (fun kv => kv.1 ++ " = %s")) ++
              " WHERE " ++ p2.1 ++ " = %s")
          rw [hp]

/-- The UPDATE builder's output written over the key list alone. -/
theorem BaseModel.update_keys_formula (t : String)
    (kvs : List (String × Value)) (p : String × Value)
    (hl : kvs.getLast? = some p) :
    BaseModel.update t kvs =
      some ("UPDATE " ++ t ++ " SET " ++
        String.intercalate ", "
          ((kvs.map Prod.fst).dropLast.map (fun k => k ++ " = %s")) ++
        " WHERE " ++ p.1 ++ " = %s") := by
  unfold BaseModel.update
  rw [hl]
  have : kvs.dropLast.map (fun kv : String × Value => kv.1 ++ " = %s") =
      (kvs.map Prod.fst).dropLast.map (fun k => k ++ " = %s") := by
    rw [← List.map_dropLast, List.map_map]
    rfl
  rw [this]

/-- C7: for every table name and mapping with at least two keys, the
builder's UPDATE is `UPDATE t SET k1 = %s, ..., k_{n-1} = %s WHERE kn = %s`:
its SET clause holds exactly the given columns except the last key, each
bound to a `%s` placeholder, its WHERE predicate filters on the last key,
and the mapped values never reach the SQL text (the output is unchanged
under any replacement of the values). -/
theorem c7_update_sql_shape (t : String) (ks : List String) (vs vs2 : List Value)
    (h2 : 2 ≤ ks.length) (hv : vs.length = ks.length) (hv2 : vs2.length = ks.length) :
    BaseModel.update t (ks.zip vs) =
      some ("UPDATE " ++ t ++ " SET " ++
        String.intercalate ", " (ks.dropLast.map (fun k => k ++ " = %s")) ++
        " WHERE " ++ ks.getLastD "" ++ " = %s")
    ∧ BaseModel.update t (ks.zip vs) = BaseModel.update t (ks.zip vs2) := by
  have hne : ks ≠ [] := by
    intro e; subst e; simp at h2
  have hfst : (ks.zip vs).map Prod.fst = ks :=
    List.map_fst_zip ks vs (le_of_eq hv.symm)
  have hfst2 : (ks.zip vs2).map Prod.fst = ks :=
    List.map_fst_zip ks vs2 (le_of_eq hv2.symm)
  obtain ⟨k, hk⟩ := Option.isSome_iff_exists.mp (List.getLast?_isSome.mpr hne)
  have hzl : ((ks.zip vs).getLast?).map Prod.fst = some k := by
    rw [← List.getLast?_map, hfst, hk]
  obtain ⟨p, hp, hpk⟩ : ∃ p, (ks.zip vs).getLast? = some p ∧ p.1 = k := by
    cases hq : (ks.zip vs).getLast? with
    | none => rw [hq] at hzl; exact absurd hzl (by simp)
    | some p =>
        rw [hq] at hzl
        exact ⟨p, rfl, by simpa using hzl⟩
  constructor
  · rw [BaseModel.update_keys_formula t (ks.zip vs) p hp, hfst, hpk]
    have : ks.getLastD "" = k := by
      rw [List.getLastD_eq_getLast?, hk]; rfl
    rw [this]
  · exact BaseModel.update_eq_of_keys_eq t _ _ (hfst.trans hfst2.symm)

/-- Witness for C7: a concrete three-key mapping, with two different value
lists, yields the stated SQL text. -/
theorem c7_update_sql_shape_witness :
    BaseModel.update "appointments"
        (["status", "doctor_id", "appointment_id"].zip
          [Value.str "completed", Value.int 3, Value.int 1]) =
      some "UPDATE appointments SET status = %s, doctor_id = %s WHERE appointment_id = %s"
    ∧ BaseModel.update "appointments"
        (["status", "doctor_id", "appointment_id"].zip
          [Value.str "completed", Value.int 3, Value.int 1]) =
      BaseModel.update "appointments"
        (["status", "doctor_id", "appointment_id"].zip
          [Value.str "x", Value.int 77, Value.int 99]) := by
  have h := c7_update_sql_shape "appointments" ["status", "doctor_id", "appointment_id"]
    [Value.str "completed", Value.int 3, Value.int 1]
    [Value.str "x", Value.int 77, Value.int 99]
    (by decide) (by decide) (by decide)
  exact ⟨by rw [h.1]; rfl, h.2⟩

/-- C8: `execute_query` first ensures connectivity (the trace opens with
the liveness check); on success it executes and commits; a first
operational-class error triggers exactly one reconnect-and-retry before a
typed `DatabaseError` can surface (and a successful retry commits); any
other driver error rolls back and surfaces a typed `DatabaseError`; and
no call ever executes the statement more than twice. -/
theorem c8_execute_query_retry_discipline (env : DbEnv) :
    (execute_query env).2.head? = some DbEvent.ensure
    ∧ execCount (execute_query env).2 ≤ 2
    ∧ (env.ensureConn = false → env.reconnectPre = false →
        (execute_query env).1 =
          QResult.dbError "Database connection could not be established"
        ∧ execCount (execute_query env).2 = 0)
    ∧ ((env.ensureConn = true ∨ env.reconnectPre = true) →
        (env.firstExec = ExecOutcome.ok →
          (execute_query env).1 = QResult.ok
          ∧ (execute_query env).2.getLast? = some DbEvent.commit
          ∧ execCount (execute_query env).2 = 1)
        ∧ (∀ m, env.firstExec = ExecOutcome.operationalError m →
            (env.reconnectRetry = false →
              (execute_query env).1 = QResult.dbError "Could not reconnect to database"
              ∧ execCount (execute_query env).2 = 1)
            ∧ (env.reconnectRetry = true →
                execCount (execute_query env).2 = 2
                ∧ (env.retryExec = ExecOutcome.ok →
                    (execute_query env).1 = QResult.ok
                    ∧ (execute_query env).2.getLast? = some DbEvent.commit)
                ∧ ((execute_query env).1.isDbError = true →
                    (execute_query env).2.getLast? = some DbEvent.rollback)))
        ∧ (∀ m, env.firstExec = ExecOutcome.otherError m →
            (execute_query env).1 = QResult.dbError ("Query execution failed: " ++ m)
            ∧ (execute_query env).2.getLast? = some DbEvent.rollback
            ∧ execCount (execute_query env).2 = 1)) := by
  obtain ⟨ec, rp, rr, fe, re⟩ := env
  cases ec <;> cases rp <;> cases rr <;> cases fe <;> cases re <;>
    simp [execute_query, execCount, QResult.isDbError]

/-- Witness for C8: with a live connection, a first operational error, a
successful reconnect and a failing retry, the statement runs exactly
twice and the call surfaces a typed `DatabaseError`. -/
theorem c8_execute_query_retry_discipline_witness :
    execCount (execute_query
        ⟨true, true, true, ExecOutcome.operationalError "conn reset",
         ExecOutcome.otherError "dup key"⟩).2 = 2
    ∧ (execute_query
        ⟨true, true, true, ExecOutcome.operationalError "conn reset",
         ExecOutcome.otherError "dup key"⟩).1.isDbError = true := by
  have h := c8_execute_query_retry_discipline
    ⟨true, true, true, ExecOutcome.operationalError "conn reset",
     ExecOutcome.otherError "dup key"⟩
  refine ⟨((((h.2.2.2 (Or.inl rfl)).2.1 "conn reset" rfl).2) rfl).1, by rfl⟩

/-- C10: for every table and every one-key mapping the builder's UPDATE is
the degenerate `UPDATE t SET  WHERE k = %s` with an empty SET clause, and
an update request with an empty body (leaving only the controller-appended
`appointment_id` key) makes `update_appointment` build exactly that SQL
for the appointments table while no column is set (the state is
unchanged: PostgreSQL rejects the statement). -/
theorem c10_single_key_update_is_degenerate (t k : String) (v : Value)
    (user : Value) (s : DBState) (id : Int) (row : Row)
    (hrow : findBy s.appointments 0 (Value.int id) = some row) :
    BaseModel.update t [(k, v)] =
      some ("UPDATE " ++ t ++ " SET  WHERE " ++ k ++ " = %s")
    ∧ (update_appointment user s id []).sqls =
        [BaseModel.select "appointments" [("appointment_id", Value.int id)],
         "UPDATE appointments SET  WHERE appointment_id = %s"]
    ∧ (update_appointment user s id []).state = s := by
  refine ⟨?_, ?_, ?_⟩
  · show some ("UPDATE " ++ t ++ " SET " ++
        String.intercalate ", " ([] : List String) ++ " WHERE " ++ k ++ " = %s") =
      some ("UPDATE " ++ t ++ " SET  WHERE " ++ k ++ " = %s")
    have hi : String.intercalate ", " ([] : List String) = "" := rfl
    rw [hi, String.append_empty]
    rw [String.append_assoc ("UPDATE " ++ t) " SET " " WHERE ",
        String.append_assoc "UPDATE " t (" SET " ++ " WHERE "),
        String.append_assoc "UPDATE " t " SET  WHERE "]
    have hmerge : (" SET " ++ " WHERE ") = " SET  WHERE " := rfl
    rw [hmerge]
  · simp only [update_appointment, hrow]; rfl
  · simp only [update_appointment, hrow]; rfl

/-- Witness for C10: the concrete degenerate statement on the sample
database. -/
theorem c10_single_key_update_is_degenerate_witness :
    BaseModel.update "appointments" [("appointment_id", Value.int 1)] =
      some "UPDATE appointments SET  WHERE appointment_id = %s"
    ∧ (update_appointment (Value.int 3) sampleState 1 []).sqls =
        ["SELECT * FROM appointments WHERE appointment_id = %s",
         "UPDATE appointments SET  WHERE appointment_id = %s"]
    ∧ (update_appointment (Value.int 3) sampleState 1 []).state = sampleState := by
  have h := c10_single_key_update_is_degenerate "appointments" "appointment_id"
    (Value.int 1) (Value.int 3) sampleState 1 sampleRow rfl
  exact ⟨by rw [h.1]; rfl, by rw [h.2.1]; rfl, h.2.2⟩

/-- C1: evaluation of `get_apointment_by_id` at the failing input: on an
existing appointment whose doctor reference is 3 and patient reference
is 9, both the doctor (caller 3) and the patient (caller 9) are answered
with the 403 refusal, because the source requires the caller to equal
BOTH references (`user != appointment[3] or user != appointment[4]`);
the claim — and the spec's stated intent — say either of them succeeds. -/
theorem c1_get_by_id_denies_doctor_and_patient :
    findBy sampleState.appointments 0 (Value.int 1) = some sampleRow
    ∧ List.get? sampleRow 3 = some (Value.int 3)
    ∧ List.get? sampleRow 4 = some (Value.int 9)
    ∧ (get_apointment_by_id (Value.int 3) sampleState 1).resp =
        HResp.err 403 "You are not allowed to see this appointment"
    ∧ (get_apointment_by_id (Value.int 9) sampleState 1).resp =
        HResp.err 403 "You are not allowed to see this appointment"
    ∧ (get_apointment_by_id (Value.int 7) sampleState 1).resp =
        HResp.err 403 "You are not allowed to see this appointment" :=
  ⟨rfl, rfl, rfl, rfl, rfl, rfl⟩

/-- C4: evaluation of `update_appointment` at the failing input: updating
the existing sample appointment with `{"status": "completed"}` executes
the UPDATE (the stored status becomes `completed`), but then the patient
lookup reads `appointment[5]`, one past the end of the five-column row of
the spec's data model, so the call answers 500 and sends no email at all
— the claim says exactly one accepted-style notification is sent. -/
theorem c4_status_update_sends_no_mail :
    findBy sampleState.appointments 0 (Value.int 1) = some sampleRow
    ∧ (update_appointment (Value.int 3) sampleState 1
        [("status", Value.str "completed")]).mails = []
    ∧ (update_appointment (Value.int 3) sampleState 1
        [("status", Value.str "completed")]).resp =
        HResp.err 500 "Error while updating appointment : list index out of range"
    ∧ (update_appointment (Value.int 3) sampleState 1
        [("status", Value.str "completed")]).state.appointments =
        [[Value.int 1, Value.time 50, Value.str "completed", Value.int 3, Value.int 9]]
    ∧ (update_appointment (Value.int 3) sampleState 1
        [("status", Value.str "rejected")]).mails = [] :=
  ⟨rfl, rfl, rfl, rfl, rfl⟩

/-- C5 counterexample: caller 7 is not the sample appointment's doctor
(reference 3), yet `delete_appointment` answers 500 — not the
authorization-class 403 the claim states — because the 403 raised inside
the `try` is re-wrapped; the row itself does remain. -/
theorem c5_counterexample_non_doctor_gets_500 :
    findBy sampleState.appointments 0 (Value.int 1) = some sampleRow
    ∧ List.get? sampleRow 3 = some (Value.int 3)
    ∧ (delete_appointment (Value.int 7) sampleState 1).resp =
        HResp.err 500 "Error while fetching appointment : 403: You are not allowed to delete this appointment"
    ∧ (delete_appointment (Value.int 7) sampleState 1).resp.status ≠ 403
    ∧ (delete_appointment (Value.int 7) sampleState 1).state = sampleState :=
  ⟨rfl, rfl, rfl, by decide, rfl⟩

/-- C5 (amended): a delete request on an existing appointment by a caller
who is not its doctor reference fails with a server-class 500 error whose
detail embeds the authorization refusal, and the appointment row is not
deleted (the database state is unchanged). -/
theorem c5_non_doctor_delete_rejected (user : Value) (s : DBState) (id : Int)
    (row : Row) (d : Value)
    (hrow : findBy s.appointments 0 (Value.int id) = some row)
    (hd : List.get? row 3 = some d)
    (hne : user ≠ d) :
    (delete_appointment user s id).resp =
      HResp.err 500 "Error while fetching appointment : 403: You are not allowed to delete this appointment"
    ∧ (delete_appointment user s id).state = s := by
  have hb : (user != d) = true := bne_iff_ne.mpr hne
  constructor
  · simp only [delete_appointment, hrow, hd, hb]; rfl
  · simp only [delete_appointment, hrow, hd, hb]; rfl

/-- Witness for C5: caller 7 against the sample appointment owned by
doctor 3. -/
theorem c5_non_doctor_delete_rejected_witness :
    (delete_appointment (Value.int 7) sampleState 1).resp =
      HResp.err 500 "Error while fetching appointment : 403: You are not allowed to delete this appointment"
    ∧ (delete_appointment (Value.int 7) sampleState 1).state = sampleState :=
  c5_non_doctor_delete_rejected (Value.int 7) sampleState 1 sampleRow
    (Value.int 3) rfl rfl (by decide)

/-- C2 counterexample: with doctor 3 and patient 9 resolving, a request
whose time parses strictly before now (tick 0 < 5) is answered 500, not
the validation-class 400 the claim states; and a request whose time
parses exactly to now (tick 5, hence not strictly in the future) passes
the check and inserts a row, against the claim's "no appointment row is
inserted". -/
theorem c2_counterexample_past_time_is_500_and_now_inserts :
    (findBy sampleState.doctors 0 (Value.int 3)).isSome = true
    ∧ (findBy sampleState.patients 0 (Value.int 9)).isSome = true
    ∧ parse0 "PAST" = some 0 ∧ ((0 : Int) < 5)
    ∧ (add_appointment parse0 5 sampleState ⟨2, "PAST", "pending", 3, 9⟩).resp.status = 500
    ∧ (add_appointment parse0 5 sampleState ⟨2, "PAST", "pending", 3, 9⟩).resp.status ≠ 400
    ∧ (add_appointment parse0 5 sampleState ⟨2, "PAST", "pending", 3, 9⟩).state = sampleState
    ∧ parse0 "NOW" = some 5 ∧ ¬ ((5 : Int) > 5)
    ∧ (add_appointment parse0 5 sampleState ⟨2, "NOW", "pending", 3, 9⟩).state.appointments =
        sampleState.appointments ++
          ([[Value.int 2, Value.str "NOW", Value.str "pending", Value.int 3, Value.int 9]] :
            List Row) :=
  ⟨rfl, rfl, rfl, by decide, rfl, by decide, rfl, rfl, by decide, rfl⟩

/-- C2 (amended): when the doctor and patient ids resolve and the parsed
`appointment_time` is strictly before the current server time, create
fails with a server-class 500 error whose detail embeds the
time-validation message, no appointment row is inserted, and no mail is
sent; a time exactly equal to the current time is not rejected by the
check. -/
theorem c2_past_time_create_rejected_as_500 (parse : String → Option Int)
    (now : Int) (s : DBState) (a : AppointmentReq) (t : Int)
    (hd : (findBy s.doctors 0 (Value.int a.doctor_id)).isSome = true)
    (hp : (findBy s.patients 0 (Value.int a.patient_id)).isSome = true)
    (ht : parse a.appointment_time = some t)
    (hlt : t < now) :
    (add_appointment parse now s a).resp =
      HResp.err 500 ("error : 400: Appointment time should be in future" ++ a.appointment_time)
    ∧ (add_appointment parse now s a).state = s
    ∧ (add_appointment parse now s a).mails = [] := by
  obtain ⟨rd, hrd⟩ := Option.isSome_iff_exists.mp hd
  obtain ⟨rp, hrp⟩ := Option.isSome_iff_exists.mp hp
  refine ⟨?_, ?_, ?_⟩ <;>
    simp only [add_appointment, hrd, hrp, ht, if_pos hlt]

/-- Witness for C2 (amended): the "PAST" request against the sample
database. -/
theorem c2_past_time_create_rejected_as_500_witness :
    (add_appointment parse0 5 sampleState ⟨2, "PAST", "pending", 3, 9⟩).resp =
      HResp.err 500 ("error : 400: Appointment time should be in future" ++ "PAST")
    ∧ (add_appointment parse0 5 sampleState ⟨2, "PAST", "pending", 3, 9⟩).state = sampleState
    ∧ (add_appointment parse0 5 sampleState ⟨2, "PAST", "pending", 3, 9⟩).mails = [] :=
  c2_past_time_create_rejected_as_500 parse0 5 sampleState
    ⟨2, "PAST", "pending", 3, 9⟩ 0 rfl rfl rfl (by decide)

/-- C3 counterexample: no doctor row has user id 7, and the create request
referencing doctor 7 is answered 500 with the wrapped message — not the
not-found-class 404 the claim states; no row is inserted. -/
theorem c3_counterexample_missing_doctor_is_500 :
    findBy sampleState.doctors 0 (Value.int 7) = none
    ∧ (add_appointment parse0 5 sampleState ⟨2, "NOW", "pending", 7, 9⟩).resp =
        HResp.err 500 "Error while checking doctor or patient ID : 404: Doctor ID is wrong"
    ∧ (add_appointment parse0 5 sampleState ⟨2, "NOW", "pending", 7, 9⟩).resp.status ≠ 404
    ∧ (add_appointment parse0 5 sampleState ⟨2, "NOW", "pending", 7, 9⟩).state = sampleState :=
  ⟨rfl, rfl, by decide, rfl⟩

/-- C3 (amended): when the referenced doctor id or patient id does not
resolve to a row of the matching role table, create fails with a
server-class 500 error whose detail embeds the corresponding wrapped
not-found message, no appointment row is inserted, and no mail is sent. -/
theorem c3_missing_reference_create_rejected_as_500 (parse : String → Option Int)
    (now : Int) (s : DBState) (a : AppointmentReq)
    (h : findBy s.doctors 0 (Value.int a.doctor_id) = none
         ∨ findBy s.patients 0 (Value.int a.patient_id) = none) :
    ((add_appointment parse now s a).resp =
        HResp.err 500 "Error while checking doctor or patient ID : 404: Doctor ID is wrong"
      ∨ (add_appointment parse now s a).resp =
        HResp.err 500 "Error while checking doctor or patient ID : 404: Patient ID is wrong")
    ∧ (add_appointment parse now s a).state = s
    ∧ (add_appointment parse now s a).mails = [] := by
  cases hdoc : findBy s.doctors 0 (Value.int a.doctor_id) with
  | none =>
      refine ⟨Or.inl ?_, ?_, ?_⟩ <;> simp only [add_appointment, hdoc]
  | some rd =>
      have hpat : findBy s.patients 0 (Value.int a.patient_id) = none := by
        cases h with
        | inl hl => rw [hdoc] at hl; exact absurd hl (by simp)
        | inr hr => exact hr
      refine ⟨Or.inr ?_, ?_, ?_⟩ <;> simp only [add_appointment, hdoc, hpat]

/-- Witness for C3 (amended): the request referencing the missing doctor 7
against the sample database. -/
theorem c3_missing_reference_create_rejected_as_500_witness :
    ((add_appointment parse0 5 sampleState ⟨2, "NOW", "pending", 7, 9⟩).resp =
        HResp.err 500 "Error while checking doctor or patient ID : 404: Doctor ID is wrong"
      ∨ (add_appointment parse0 5 sampleState ⟨2, "NOW", "pending", 7, 9⟩).resp =
        HResp.err 500 "Error while checking doctor or patient ID : 404: Patient ID is wrong")
    ∧ (add_appointment parse0 5 sampleState ⟨2, "NOW", "pending", 7, 9⟩).state = sampleState
    ∧ (add_appointment parse0 5 sampleState ⟨2, "NOW", "pending", 7, 9⟩).mails = [] :=
  c3_missing_reference_create_rejected_as_500 parse0 5 sampleState
    ⟨2, "NOW", "pending", 7, 9⟩ (Or.inl rfl)

/-- When every key of the field set is one of the updatable appointment
columns, resolving the SET assignments to column positions succeeds. -/
theorem mapM_colIndex_isSome (data : List (String × Value))
    (hkeys : ∀ k ∈ data.map Prod.fst,
      k = "appointment_time" ∨ k = "doctor_id" ∨ k = "patient_id") :
    ∃ sets, data.mapM (fun kv => (colIndex kv.1).map (fun i => (i, kv.2))) =
      some sets := by
  induction data with
  | nil => exact ⟨[], rfl⟩
  | cons kv tl ih =>
      obtain ⟨sets, hs⟩ := ih (fun k hk => hkeys k (by simp [hk]))
      have hc : ∃ i, colIndex kv.1 = some i := by
        rcases hkeys kv.1 (by simp) with h | h | h <;> rw [h] <;> exact ⟨_, rfl⟩
      obtain ⟨i, hi⟩ := hc
      refine ⟨(i, kv.2) :: sets, ?_⟩
      rw [List.mapM_cons, hi, hs]
      rfl

/-- C9 counterexample: three update requests on the existing sample
appointment whose field sets lack `status` — the empty set, a set with an
unknown column, and a set that re-passes `appointment_id` — all leave the
row unmodified (the UPDATE statement is not successfully executed), and
the empty one fails with the SQL syntax error rather than the missing-key
access the claim describes. -/
theorem c9_counterexample_statusless_updates_not_executed :
    findBy sampleState.appointments 0 (Value.int 1) = some sampleRow
    ∧ (update_appointment (Value.int 3) sampleState 1 []).state = sampleState
    ∧ (update_appointment (Value.int 3) sampleState 1 []).resp =
        HResp.err 500 "Error while updating appointment : Query execution failed: syntax error at or near WHERE"
    ∧ (update_appointment (Value.int 3) sampleState 1 [("foo", Value.int 1)]).state = sampleState
    ∧ (update_appointment (Value.int 3) sampleState 1 [("appointment_id", Value.int 2)]).state = sampleState :=
  ⟨rfl, rfl, rfl, rfl, rfl⟩

/-- C9 (amended): an update request on an existing appointment whose field
set is non-empty, names only updatable appointment columns (so not
`appointment_id`), and does not contain `status`, executes the UPDATE
statement against the appointments table — the resulting state is exactly
the applied update — and nevertheless reports a server-class 500 error
from the missing-key access on `appointment_data["status"]`; no success
response is produced and no mail is sent. -/
theorem c9_statusless_update_executes_then_500 (user : Value) (s : DBState)
    (id : Int) (data : List (String × Value)) (row : Row)
    (hrow : findBy s.appointments 0 (Value.int id) = some row)
    (hne : data ≠ [])
    (hkeys : ∀ k ∈ data.map Prod.fst,
        k = "appointment_time" ∨ k = "doctor_id" ∨ k = "patient_id") :
    ∃ s2, execUpdate s (data ++ [("appointment_id", Value.int id)]) = Except.ok s2
      ∧ update_appointment user s id data =
          ⟨HResp.err 500 "Error while updating appointment : KeyError status", s2, [],
           [BaseModel.select "appointments" [("appointment_id", Value.int id)],
            (BaseModel.update "appointments"
              (data ++ [("appointment_id", Value.int id)])).getD ""]⟩ := by
  have hnotin : "appointment_id" ∉ data.map Prod.fst := by
    intro hmem
    rcases hkeys _ hmem with h | h | h <;> exact absurd h (by decide)
  have hie : data.isEmpty = false := List.isEmpty_eq_false.mpr hne
  obtain ⟨sets, hsets⟩ := mapM_colIndex_isSome data hkeys
  have hexec : execUpdate s (data ++ [("appointment_id", Value.int id)]) =
      Except.ok { s with appointments :=
        s.appointments.map (fun r =>
          if List.get? r 0 == some (Value.int id) then applySets r sets
          else r) } := by
    unfold execUpdate
    rw [List.getLast?_concat, List.dropLast_concat]
    simp only [hie, hsets]
    rfl
  have hlookup : data.lookup "status" = none := by
    rw [List.lookup_eq_none_iff]
    intro p hp
    rcases hkeys p.1 (List.mem_map_of_mem Prod.fst hp) with h | h | h <;>
      rw [h] <;> rfl
  refine ⟨_, hexec, ?_⟩
  simp only [update_appointment, hrow]
  rw [if_neg hnotin]
  simp only [hexec, hlookup]

/-- Witness for C9 (amended): updating the sample appointment with
`{"doctor_id": 4}` rewrites the stored doctor reference and still answers
the 500 missing-key error with no mail. -/
theorem c9_statusless_update_executes_then_500_witness :
    update_appointment (Value.int 3) sampleState 1 [("doctor_id", Value.int 4)] =
      ⟨HResp.err 500 "Error while updating appointment : KeyError status",
       { sampleState with appointments :=
          [[Value.int 1, Value.time 50, Value.str "pending", Value.int 4, Value.int 9]] },
       [],
       ["SELECT * FROM appointments WHERE appointment_id = %s",
        "UPDATE appointments SET doctor_id = %s WHERE appointment_id = %s"]⟩ := by
  obtain ⟨s2, hexec, heq⟩ := c9_statusless_update_executes_then_500
    (Value.int 3) sampleState 1 [("doctor_id", Value.int 4)] sampleRow rfl
    (by decide) (by decide)
  have hc : execUpdate sampleState
      (([("doctor_id", Value.int 4)] : List (String × Value)) ++
        [("appointment_id", Value.int 1)]) =
      Except.ok ({ sampleState with appointments :=
        [[Value.int 1, Value.time 50, Value.str "pending", Value.int 4, Value.int 9]] } :
          DBState) := by rfl
  rw [hexec] at hc
  injection hc with hs2
  rw [heq, hs2]
  rfl
